import Mathlib

/-!
Verification of the order-lifecycle and payment-settlement core of the
`brofr` e-commerce backend (`OrdersService` in the orders module and
`PaymentsService` in the payments module).

The TypeScript services act on a relational store through an ORM.  We embed
them shallowly: the store is a record of lists of rows (`DB`), each service
method is a pure function from a `DB` (plus its arguments and, where the
original code consults an external oracle such as a payment provider or a
clock, an explicit parameter standing for that oracle's answer) to a result
together with the successor `DB`.  ORM transactions are all-or-nothing: an
exception raised anywhere inside a `$transaction` callback rolls every write
back, so an erroring method returns the original `DB` unchanged.  Monetary
values are integer minor currency units (`Nat`); stock counters are `Int`
exactly as a relational integer column.  Presentation-only columns that no
verified property touches (image URLs, shipping snapshot text fields,
timestamps) are omitted from the row types.
-/

namespace Brofr

/-- Order lifecycle states, mirroring the `OrderStatus` enum of the schema. -/
inductive OrderStatus
  | PENDING | PAID | PROCESSING | SHIPPED | DELIVERED | CANCELLED | RETURNED | REFUNDED
  deriving DecidableEq, BEq, Repr

/-- Payment lifecycle states, mirroring the `PaymentStatus` enum of the schema. -/
inductive PaymentStatus
  | INITIATED | PENDING | SUCCESS | FAILED | REFUNDED
  deriving DecidableEq, BEq, Repr

/-- Payment providers, mirroring the `PaymentProvider` enum of the schema. -/
inductive PaymentProvider
  | STRIPE | RAZORPAY | PAYPAL | COD
  deriving DecidableEq, BEq, Repr

/-- Error outcomes of a service call.  The first four constructors are the
NestJS exception classes thrown by the services; `PrismaError` stands for an
ORM-level failure (e.g. an `update` whose `where` clause matches no row),
which likewise aborts the enclosing transaction. -/
inductive NestError
  | NotFoundException | BadRequestException | ForbiddenException | ConflictException
  | PrismaError
  deriving DecidableEq, BEq, Repr

/-- Product row: the fields of the catalog row the core reads or writes. -/
structure Product where
  id : Nat
  title : String
  price : Nat
  stock : Int
  isActive : Bool
  deriving DecidableEq, BEq, Repr

/-- Order row (shipping snapshot and timestamp columns omitted). -/
structure Order where
  id : Nat
  orderNumber : String
  userId : Nat
  status : OrderStatus
  subtotal : Nat
  tax : Nat
  shippingCharge : Nat
  discount : Nat
  totalAmount : Nat
  cancelReason : Option String
  deriving DecidableEq, BEq, Repr

/-- OrderItem row: the per-line snapshot created with an order. -/
structure OrderItem where
  orderId : Nat
  productId : Nat
  productTitle : String
  quantity : Nat
  pricePerUnit : Nat
  totalPrice : Nat
  deriving DecidableEq, BEq, Repr

/-- OrderTracking row: one append-only event per status change. -/
structure OrderTracking where
  orderId : Nat
  status : OrderStatus
  note : String
  deriving DecidableEq, BEq, Repr

/-- Payment row, one-to-one with orders. -/
structure Payment where
  id : Nat
  orderId : Nat
  userId : Nat
  amount : Nat
  currency : String
  status : PaymentStatus
  provider : PaymentProvider
  providerOrderId : String
  providerPaymentId : Option String
  paymentMethod : Option String
  failureReason : Option String
  idempotencyKey : String
  deriving DecidableEq, BEq, Repr

/-- The relational store the two services act on. -/
structure DB where
  products : List Product
  orders : List Order
  orderItems : List OrderItem
  orderTracking : List OrderTracking
  payments : List Payment
  deriving DecidableEq, BEq, Repr

/-- One entry of `CreateOrderInput.items`. -/
structure CreateOrderItemInput where
  productId : Nat
  quantity : Nat
  deriving DecidableEq, BEq, Repr

/-- The generic webhook payload DTO consumed by `processWebhook`. -/
structure WebhookPayloadDto where
  event : String
  providerOrderId : String
  providerPaymentId : Option String
  signature : Option String
  amount : Option Nat
  status : Option String
  paymentMethod : Option String
  failureReason : Option String
  deriving DecidableEq, BEq, Repr

/-- The fields of a Stripe `PaymentIntent` object the Stripe handlers read. -/
structure StripePaymentIntent where
  id : String
  paymentMethod : Option String
  lastPaymentErrorMessage : Option String
  deriving DecidableEq, BEq, Repr

/-- JavaScript `s || dflt` on an optional string: `undefined` and the empty
string are falsy and yield the default. -/
def jsOr (s : Option String) (dflt : String) : String :=
  match s with
  | none => dflt
  | some str => if str = "" then dflt else str

/-- JavaScript `s || null` on an optional string: `undefined` and the empty
string become `null`. -/
def jsOrNull (s : Option String) : Option String :=
  match s with
  | none => none
  | some str => if str = "" then none else some str

/-- JavaScript truthiness of an optional number: `undefined` and `0` are
falsy.  Models the guard `if (amount && ...)` in `processWebhook`. -/
def truthyAmount (amount : Option Nat) : Bool :=
  match amount with
  | none => false
  | some a => a != 0

/-- String name of an order status, as interpolated into tracking notes. -/
def OrderStatus.name : OrderStatus → String
  | .PENDING => "PENDING"
  | .PAID => "PAID"
  | .PROCESSING => "PROCESSING"
  | .SHIPPED => "SHIPPED"
  | .DELIVERED => "DELIVERED"
  | .CANCELLED => "CANCELLED"
  | .RETURNED => "RETURNED"
  | .REFUNDED => "REFUNDED"

/-- The `validTransitions` table of `OrdersService.isValidTransition`,
row by row from the source. -/
def validTransitions (s : OrderStatus) : List OrderStatus :=
  match s with
  | .PENDING => [.PAID, .CANCELLED]
  | .PAID => [.PROCESSING, .CANCELLED]
  | .PROCESSING => [.SHIPPED, .CANCELLED]
  | .SHIPPED => [.DELIVERED, .RETURNED]
  | .DELIVERED => [.RETURNED]
  | .CANCELLED => []
  | .RETURNED => [.REFUNDED]
  | .REFUNDED => []

/-- `OrdersService.isValidTransition`: membership of the target status in the
row of the transition table selected by the current status. -/
def isValidTransition (currentStatus newStatus : OrderStatus) : Bool :=
  (validTransitions currentStatus).contains newStatus

/-- `OrdersService.updateOrderStatus` (admin path): look the order up, reject
an illegal transition, otherwise set the new status and append one tracking
row inside one transaction.  The audit emission after the transaction touches
no modelled state. -/
def updateOrderStatus (db : DB) (orderId : Nat) (newStatus : OrderStatus)
    (note : Option String) : Except NestError Order × DB :=
  match db.orders.find? (fun o => o.id == orderId) with
  | none => (.error .NotFoundException, db)
  | some order =>
    if isValidTransition order.status newStatus then
      (.ok { order with status := newStatus },
       { db with
         orders := db.orders.map (fun o =>
           if o.id == orderId then { o with status := newStatus } else o),
         orderTracking := db.orderTracking ++
           [{ orderId := orderId, status := newStatus,
              note := note.getD ("Order status changed to " ++ newStatus.name) }] })
    else
      (.error .BadRequestException, db)

/-- The per-item loop inside the `createOrder` transaction: for each requested
item, look its product up in the pre-transaction `productMap`, re-read the row
inside the transaction (`lockedProduct`), reject insufficient stock, price the
line with `product.price` from the `productMap` (the pre-transaction read, as
in the source), then decrement the stock.  Returns the accumulated subtotal,
the prepared `OrderItem` rows and the product table after all decrements. -/
def reserveItems (productMap : List Product) (items : List CreateOrderItemInput)
    (newOrderId : Nat) (ps : List Product) :
    Except NestError (Nat × List OrderItem × List Product) :=
  match items with
  | [] => .ok (0, [], ps)
  | item :: rest =>
    match productMap.find? (fun p => p.id == item.productId) with
    | none => .error .BadRequestException
    | some product =>
      match ps.find? (fun p => p.id == item.productId) with
      | none => .error .BadRequestException
      | some lockedProduct =>
        if lockedProduct.stock < (item.quantity : Int) then
          .error .BadRequestException
        else
          match reserveItems productMap rest newOrderId
              (ps.map (fun p =>
                if p.id == item.productId then
                  { p with stock := p.stock - (item.quantity : Int) }
                else p)) with
          | .error e => .error e
          | .ok (restSubtotal, restItems, finalPs) =>
            .ok (product.price * item.quantity + restSubtotal,
                 { orderId := newOrderId, productId := item.productId,
                   productTitle := product.title, quantity := item.quantity,
                   pricePerUnit := product.price,
                   totalPrice := product.price * item.quantity } :: restItems,
                 finalPs)

/-- The `findMany` read `createOrder` performs before opening its
transaction: the active products whose id is referenced by the request. -/
def fetchedProducts (snapshot : DB) (items : List CreateOrderItemInput) : List Product :=
  snapshot.products.filter
    (fun p => (items.map (fun i => i.productId)).contains p.id && p.isActive)

/-- `OrdersService.createOrder`.  The source first runs `findMany` over active
referenced products outside the transaction and then opens a serializable
transaction; `snapshot` is the store at that outer read and `db` the store the
transaction sees (they coincide for a call with no interleaved writer, and
differ exactly when a concurrent commit lands between the two reads).
`orderNumber` and `newOrderId` stand for the generated order number and the
fresh row id.  The transaction is all-or-nothing: every error path returns
`db` unchanged. -/
def createOrder (snapshot : DB) (db : DB) (userId : Nat)
    (items : List CreateOrderItemInput) (orderNumber : String) (newOrderId : Nat) :
    Except NestError Order × DB :=
  if (fetchedProducts snapshot items).length ≠ (items.map (fun i => i.productId)).length then
    (.error .BadRequestException, db)
  else
    match reserveItems (fetchedProducts snapshot items) items newOrderId db.products with
    | .error e => (.error e, db)
    | .ok (subtotal, orderItemsData, finalProducts) =>
      let tax := 0
      let shippingCharge := 0
      let discount := 0
      let order : Order :=
        { id := newOrderId, orderNumber := orderNumber,
          userId := userId, status := .PENDING, subtotal := subtotal, tax := tax,
          shippingCharge := shippingCharge, discount := discount,
          totalAmount := subtotal + tax + shippingCharge - discount,
          cancelReason := none }
      (.ok order,
       { db with
         products := finalProducts,
         orders := db.orders ++ [order],
         orderItems := db.orderItems ++ orderItemsData,
         orderTracking := db.orderTracking ++
           [{ orderId := newOrderId, status := .PENDING, note := "Order created" }] })

/-- `PaymentsService.handlePaymentSuccess`: inside one transaction, set the
stored payment to `SUCCESS` (recording provider payment id and method), set
the order unconditionally to `PAID`, and append one tracking row.  A missing
payment or order row would make the ORM `update` throw and roll the
transaction back. -/
def handlePaymentSuccess (db : DB) (payment : Payment)
    (providerPaymentId : Option String) (paymentMethod : Option String) :
    Except NestError Payment × DB :=
  match db.payments.find? (fun q => q.id == payment.id) with
  | none => (.error .PrismaError, db)
  | some stored =>
    match db.orders.find? (fun o => o.id == payment.orderId) with
    | none => (.error .PrismaError, db)
    | some _ =>
      let updated := { stored with
        status := PaymentStatus.SUCCESS,
        providerPaymentId := jsOrNull providerPaymentId,
        paymentMethod := (match paymentMethod with
          | none => stored.paymentMethod
          | some m => some m) }
      (.ok updated,
       { db with
         payments := db.payments.map (fun q => if q.id == payment.id then updated else q),
         orders := db.orders.map (fun o =>
           if o.id == payment.orderId then { o with status := OrderStatus.PAID } else o),
         orderTracking := db.orderTracking ++
           [{ orderId := payment.orderId, status := OrderStatus.PAID,
              note := "Payment successful" }] })

/-- One `tx.product.update { stock: { increment: quantity } }` call. -/
def incrementStock (ps : List Product) (productId : Nat) (quantity : Nat) : List Product :=
  ps.map (fun p =>
    if p.id == productId then { p with stock := p.stock + (quantity : Int) } else p)

/-- The inventory-restoration loop of `handlePaymentFailure`: increment the
stock of each item's product in turn; an `update` against a missing product
row throws and aborts the transaction (`none`). -/
def restoreInventory (ps : List Product) (items : List OrderItem) :
    Option (List Product) :=
  match items with
  | [] => some ps
  | item :: rest =>
    if (ps.find? (fun p => p.id == item.productId)).isSome then
      restoreInventory (incrementStock ps item.productId item.quantity) rest
    else
      none

/-- Note text of the tracking row written by `handlePaymentFailure`. -/
def paymentFailedNote (failureReason : Option String) : String :=
  "Payment failed: " ++ jsOr failureReason "Unknown reason"

/-- `PaymentsService.handlePaymentFailure`: inside one transaction, set the
stored payment to `FAILED` (recording the failure reason), set the order
unconditionally to `CANCELLED`, append one tracking row, and restore the
stock of every item of the order. -/
def handlePaymentFailure (db : DB) (payment : Payment)
    (providerPaymentId : Option String) (failureReason : Option String) :
    Except NestError Payment × DB :=
  match db.payments.find? (fun q => q.id == payment.id) with
  | none => (.error .PrismaError, db)
  | some stored =>
    match db.orders.find? (fun o => o.id == payment.orderId) with
    | none => (.error .PrismaError, db)
    | some _ =>
      let updated := { stored with
        status := PaymentStatus.FAILED,
        providerPaymentId := jsOrNull providerPaymentId,
        failureReason := (match failureReason with
          | none => stored.failureReason
          | some r => some r) }
      match restoreInventory db.products
          (db.orderItems.filter (fun it => it.orderId == payment.orderId)) with
      | none => (.error .PrismaError, db)
      | some restoredProducts =>
        (.ok updated,
         { db with
           products := restoredProducts,
           payments := db.payments.map (fun q => if q.id == payment.id then updated else q),
           orders := db.orders.map (fun o =>
             if o.id == payment.orderId then { o with status := OrderStatus.CANCELLED } else o),
           orderTracking := db.orderTracking ++
             [{ orderId := payment.orderId, status := OrderStatus.CANCELLED,
                note := paymentFailedNote failureReason }] })

/-- `PaymentsService.processWebhook`: locate the payment by provider order id,
short-circuit if it is already terminal, reject a truthy mismatching amount,
then dispatch on the event/status fields; an unknown event returns the
payment unchanged. -/
def processWebhook (db : DB) (webhookData : WebhookPayloadDto) :
    Except NestError Payment × DB :=
  match db.payments.find? (fun q => q.providerOrderId == webhookData.providerOrderId) with
  | none => (.error .NotFoundException, db)
  | some payment =>
    if payment.status = PaymentStatus.SUCCESS ∨ payment.status = PaymentStatus.FAILED then
      (.ok payment, db)
    else if truthyAmount webhookData.amount ∧ webhookData.amount ≠ some payment.amount then
      (.error .BadRequestException, db)
    else if webhookData.event = "payment.success" ∨ webhookData.status = some "SUCCESS" then
      handlePaymentSuccess db payment webhookData.providerPaymentId webhookData.paymentMethod
    else if webhookData.event = "payment.failed" ∨ webhookData.status = some "FAILED" then
      handlePaymentFailure db payment webhookData.providerPaymentId webhookData.failureReason
    else
      (.ok payment, db)

/-- `PaymentsService.handleStripePaymentSuccess`: the short-circuit checks
`SUCCESS` only. -/
def handleStripePaymentSuccess (db : DB) (paymentIntent : StripePaymentIntent) :
    Except NestError Payment × DB :=
  match db.payments.find? (fun q => q.providerOrderId == paymentIntent.id) with
  | none => (.error .NotFoundException, db)
  | some payment =>
    if payment.status = PaymentStatus.SUCCESS then
      (.ok payment, db)
    else
      handlePaymentSuccess db payment (some paymentIntent.id) paymentIntent.paymentMethod

/-- `PaymentsService.handleStripePaymentFailure`: the short-circuit checks
`FAILED` only. -/
def handleStripePaymentFailure (db : DB) (paymentIntent : StripePaymentIntent) :
    Except NestError Payment × DB :=
  match db.payments.find? (fun q => q.providerOrderId == paymentIntent.id) with
  | none => (.error .NotFoundException, db)
  | some payment =>
    if payment.status = PaymentStatus.FAILED then
      (.ok payment, db)
    else
      handlePaymentFailure db payment (some paymentIntent.id)
        (some (jsOr paymentIntent.lastPaymentErrorMessage "Payment failed"))

/-- `PaymentsService.handleStripePaymentCanceled`: the short-circuit checks
both terminal states. -/
def handleStripePaymentCanceled (db : DB) (paymentIntent : StripePaymentIntent) :
    Except NestError Payment × DB :=
  match db.payments.find? (fun q => q.providerOrderId == paymentIntent.id) with
  | none => (.error .NotFoundException, db)
  | some payment =>
    if payment.status = PaymentStatus.FAILED ∨ payment.status = PaymentStatus.SUCCESS then
      (.ok payment, db)
    else
      handlePaymentFailure db payment (some paymentIntent.id) (some "Payment canceled by user")

/-- `PaymentsService.processStripeWebhook`: dispatch on the Stripe event
type; unhandled types return `null`. -/
def processStripeWebhook (db : DB) (eventType : String) (intent : StripePaymentIntent) :
    Except NestError (Option Payment) × DB :=
  if eventType = "payment_intent.succeeded" then
    let r := handleStripePaymentSuccess db intent
    (r.1.map some, r.2)
  else if eventType = "payment_intent.payment_failed" then
    let r := handleStripePaymentFailure db intent
    (r.1.map some, r.2)
  else if eventType = "payment_intent.canceled" then
    let r := handleStripePaymentCanceled db intent
    (r.1.map some, r.2)
  else
    (.ok none, db)

/-- `PaymentsService.createProviderPaymentIntent`.  The Stripe branch calls
the external API, whose answer is the explicit `stripeResult` oracle (intent
id and nullable client secret); failure is wrapped in a
`BadRequestException`.  The mock branches derive both references from the
clock, here the `mockRef` parameter. -/
def createProviderPaymentIntent (provider : PaymentProvider)
    (stripeResult : Except Unit (String × Option String)) (mockRef : String) :
    Except NestError (String × String) :=
  match provider with
  | .STRIPE =>
    match stripeResult with
    | .ok (intentId, clientSecret) => .ok (intentId, clientSecret.getD "")
    | .error _ => .error .BadRequestException
  | .RAZORPAY => .ok (mockRef, mockRef)
  | .PAYPAL => .ok (mockRef, mockRef)
  | .COD => .ok (mockRef, mockRef)

/-- `PaymentsService.createPaymentIntent`.  The result carries the payment
together with the client secret and provider order id, the successor store,
and a flag recording whether the outbound provider call was made (the source
reaches `createProviderPaymentIntent` exactly on the paths flagged `true`).
`idempotencyKey` and `newPaymentId` stand for the generated key and fresh row
id. -/
def createPaymentIntent (db : DB) (orderId userId : Nat) (provider : PaymentProvider)
    (stripeResult : Except Unit (String × Option String)) (mockRef : String)
    (idempotencyKey : String) (newPaymentId : Nat) :
    Except NestError (Payment × String × String) × DB × Bool :=
  match db.orders.find? (fun o => o.id == orderId && o.userId == userId) with
  | none => (.error .NotFoundException, db, false)
  | some order =>
    if order.status ≠ OrderStatus.PENDING then
      (.error .BadRequestException, db, false)
    else
      match db.payments.find? (fun q => q.orderId == orderId) with
      | some existingPayment =>
        (.ok (existingPayment, existingPayment.providerOrderId,
              existingPayment.providerOrderId),
         db, false)
      | none =>
        match createProviderPaymentIntent provider stripeResult mockRef with
        | .error e => (.error e, db, true)
        | .ok (providerOrderId, clientSecret) =>
          let payment : Payment :=
            { id := newPaymentId, orderId := orderId,
              userId := userId, amount := order.totalAmount, currency := "INR",
              status := PaymentStatus.INITIATED, provider := provider,
              providerOrderId := providerOrderId, providerPaymentId := none,
              paymentMethod := none, failureReason := none,
              idempotencyKey := idempotencyKey }
          (.ok (payment, clientSecret, providerOrderId),
           { db with payments := db.payments ++ [payment] }, true)

/-- Status of the order with the given id, if present. -/
def statusOf (db : DB) (orderId : Nat) : Option OrderStatus :=
  (db.orders.find? (fun o => o.id == orderId)).map (fun o => o.status)

/-- Status of the payment with the given id, if present. -/
def paymentStatusOf (db : DB) (paymentId : Nat) : Option PaymentStatus :=
  (db.payments.find? (fun q => q.id == paymentId)).map (fun q => q.status)

/-- Stock of the product with the given id, if present. -/
def stockOf (ps : List Product) (productId : Nat) : Option Int :=
  (ps.find? (fun p => p.id == productId)).map (fun p => p.stock)

/-- Number of tracking rows recorded for an order. -/
def trackCount (db : DB) (orderId : Nat) : Nat :=
  (db.orderTracking.filter (fun t => t.orderId == orderId)).length

/-- The order transition table exactly as the specification lists it,
written as the set of legal `(current, target)` pairs. -/
def specOrderTransitionTable : List (OrderStatus × OrderStatus) :=
  [(.PENDING, .PAID), (.PENDING, .CANCELLED),
   (.PAID, .PROCESSING), (.PAID, .CANCELLED),
   (.PROCESSING, .SHIPPED), (.PROCESSING, .CANCELLED),
   (.SHIPPED, .DELIVERED), (.SHIPPED, .RETURNED),
   (.DELIVERED, .RETURNED),
   (.RETURNED, .REFUNDED)]

/-- Price a product map assigns to a product id (`0` when absent; the success
paths below only ever evaluate it on present ids). -/
def priceAt (productMap : List Product) (productId : Nat) : Nat :=
  match productMap.find? (fun p => p.id == productId) with
  | some p => p.price
  | none => 0

/-- Sum of `price * quantity` over the requested items, with every price
taken from the given product map. -/
def itemsSubtotal (productMap : List Product) (items : List CreateOrderItemInput) : Nat :=
  items.foldr (fun it acc => priceAt productMap it.productId * it.quantity + acc) 0

/-- Total quantity the items of an order reference for one product id. -/
def qtySum (items : List OrderItem) (productId : Nat) : Int :=
  items.foldr
    (fun it acc => if it.productId = productId then (it.quantity : Int) + acc else acc) 0

/-- `find?` commutes with a map that does not change whether the predicate
holds (e.g. a row update keyed on a preserved column). -/
theorem find_map_comm {α : Type} (f : α → α) (p : α → Bool) (l : List α)
    (hf : ∀ a, p (f a) = p a) : (l.map f).find? p = (l.find? p).map f := by
  rw [List.find?_map]
  have hpf : (p ∘ f) = p := funext hf
  rw [hpf]

/-- Updating the status of the rows matching an id does not disturb `find?`
on that id, and yields the new status on the found row. -/
theorem statusOf_set_status (l : List Order) (oid : Nat) (st : OrderStatus) (o : Order)
    (h : l.find? (fun x => x.id == oid) = some o) :
    ((l.map (fun x => if x.id == oid then { x with status := st } else x)).find?
        (fun x => x.id == oid)).map (fun x => x.status) = some st := by
  rw [find_map_comm (fun x => if x.id == oid then { x with status := st } else x)
      (fun x => x.id == oid) l (by intro a; by_cases ha : a.id == oid <;> simp [ha]), h]
  have hp : o.id = oid := by simpa using List.find?_some h
  simp [hp]

/-- Replacing the rows matching an id by a row with the same id does not
disturb `find?` on that id, and yields the replacement on the found row. -/
theorem find_replace_same_id {α : Type} (idOf : α → Nat) (l : List α) (i : Nat)
    (c : α) (a : α) (hc : idOf c = i)
    (h : l.find? (fun x => idOf x == i) = some a) :
    ((l.map (fun x => if idOf x == i then c else x)).find? (fun x => idOf x == i)) =
      some c := by
  rw [find_map_comm (fun x => if idOf x == i then c else x) (fun x => idOf x == i) l
      (by intro x; by_cases hx : idOf x == i <;> simp [hx, hc]), h]
  have hp : idOf a = i := by simpa using List.find?_some h
  simp [hp]

/-- The payment row `handlePaymentSuccess` writes. -/
def successPayment (payment : Payment) (providerPaymentId paymentMethod : Option String) :
    Payment :=
  { payment with
    status := PaymentStatus.SUCCESS,
    providerPaymentId := jsOrNull providerPaymentId,
    paymentMethod := (match paymentMethod with
      | none => payment.paymentMethod
      | some m => some m) }

/-- Characterization of `handlePaymentSuccess` when the payment and order
rows are present (found by id): the full successor state. -/
theorem handlePaymentSuccess_eq (db : DB) (payment : Payment)
    (providerPaymentId paymentMethod : Option String) (ord : Order)
    (hid : db.payments.find? (fun q => q.id == payment.id) = some payment)
    (hord : db.orders.find? (fun o => o.id == payment.orderId) = some ord) :
    handlePaymentSuccess db payment providerPaymentId paymentMethod =
      (.ok (successPayment payment providerPaymentId paymentMethod),
       { db with
         payments := db.payments.map (fun q =>
           if q.id == payment.id then successPayment payment providerPaymentId paymentMethod
           else q),
         orders := db.orders.map (fun o =>
           if o.id == payment.orderId then { o with status := OrderStatus.PAID } else o),
         orderTracking := db.orderTracking ++
           [{ orderId := payment.orderId, status := OrderStatus.PAID,
              note := "Payment successful" }] }) := by
  unfold handlePaymentSuccess
  rw [hid, hord]
  rfl

/-- Characterization of `processWebhook` on a success signal against a
non-terminal payment with no amount mismatch. -/
theorem processWebhook_success_eq (db : DB) (w : WebhookPayloadDto)
    (payment : Payment) (ord : Order)
    (hfind : db.payments.find? (fun q => q.providerOrderId == w.providerOrderId) = some payment)
    (hid : db.payments.find? (fun q => q.id == payment.id) = some payment)
    (hord : db.orders.find? (fun o => o.id == payment.orderId) = some ord)
    (hs1 : payment.status ≠ PaymentStatus.SUCCESS)
    (hs2 : payment.status ≠ PaymentStatus.FAILED)
    (hamt : ¬(truthyAmount w.amount ∧ w.amount ≠ some payment.amount))
    (hsig : w.event = "payment.success" ∨ w.status = some "SUCCESS") :
    processWebhook db w =
      (.ok (successPayment payment w.providerPaymentId w.paymentMethod),
       { db with
         payments := db.payments.map (fun q =>
           if q.id == payment.id then successPayment payment w.providerPaymentId w.paymentMethod
           else q),
         orders := db.orders.map (fun o =>
           if o.id == payment.orderId then { o with status := OrderStatus.PAID } else o),
         orderTracking := db.orderTracking ++
           [{ orderId := payment.orderId, status := OrderStatus.PAID,
              note := "Payment successful" }] }) := by
  unfold processWebhook
  simp only [hfind]
  rw [if_neg (by rintro (h | h) <;> [exact hs1 h; exact hs2 h]), if_neg hamt, if_pos hsig]
  exact handlePaymentSuccess_eq db payment w.providerPaymentId w.paymentMethod ord hid hord

/-- Replacing the row matching an id by a row with the same id yields that
row's status under `find?` on the id. -/
theorem paymentStatusOf_replace (l : List Payment) (i : Nat) (c a : Payment)
    (hc : c.id = i) (h : l.find? (fun q => q.id == i) = some a) :
    ((l.map (fun q => if q.id == i then c else q)).find? (fun q => q.id == i)).map
      (fun q => q.status) = some c.status := by
  rw [find_map_comm (fun q => if q.id == i then c else q) (fun q => q.id == i) l
      (by intro x; by_cases hx : x.id == i <;> simp [hx, hc]), h]
  have hp : a.id = i := by simpa using List.find?_some h
  simp [hp]

/-- Concrete sample store: one PENDING order for user 7 totalling 500, two
products in stock, an INITIATED Stripe payment of 500 referenced by provider
order id "po1", and the order's two item rows. -/
def sampleOrder : Order :=
  { id := 1, orderNumber := "ORD-1", userId := 7, status := .PENDING, subtotal := 500,
    tax := 0, shippingCharge := 0, discount := 0, totalAmount := 500, cancelReason := none }

/-- Sample payment row (INITIATED, amount 500, provider order id "po1"). -/
def samplePayment : Payment :=
  { id := 1, orderId := 1, userId := 7, amount := 500, currency := "INR",
    status := .INITIATED, provider := .STRIPE, providerOrderId := "po1",
    providerPaymentId := none, paymentMethod := none, failureReason := none,
    idempotencyKey := "k1" }

/-- Sample item rows of order 1: (product 1, qty 2) and (product 2, qty 1). -/
def sampleItems : List OrderItem :=
  [{ orderId := 1, productId := 1, productTitle := "P1", quantity := 2,
     pricePerUnit := 500, totalPrice := 1000 },
   { orderId := 1, productId := 2, productTitle := "P2", quantity := 1,
     pricePerUnit := 200, totalPrice := 200 }]

/-- Sample store with the order in PENDING status. -/
def sampleDb : DB :=
  { products := [{ id := 1, title := "P1", price := 500, stock := 3, isActive := true },
                 { id := 2, title := "P2", price := 200, stock := 5, isActive := true }],
    orders := [sampleOrder], orderItems := sampleItems, orderTracking := [],
    payments := [samplePayment] }

/-- Sample store whose only difference is that order 1 is already CANCELLED
(e.g. the user cancelled it while the payment was still INITIATED). -/
def cancelledDb : DB :=
  { sampleDb with orders := [{ sampleOrder with status := .CANCELLED }] }

/-- A generic provider success webhook for provider order id "po1". -/
def successWebhook : WebhookPayloadDto :=
  { event := "payment.success", providerOrderId := "po1", providerPaymentId := some "pp1",
    signature := none, amount := none, status := none, paymentMethod := none,
    failureReason := none }

/-- Claim C1, counterexample: on a store whose order 1 is already CANCELLED
while its payment is still INITIATED (reachable: `cancelOrder` cancels a
PENDING order without touching the payment), a provider success signal still
sets the order to PAID, although CANCELLED → PAID is not a legal edge of the
state machine.  This refutes "the order's status is set to PAID only when its
current status is PENDING, never from any other status". -/
theorem claim_C1_counterexample :
    statusOf cancelledDb 1 = some OrderStatus.CANCELLED ∧
    isValidTransition OrderStatus.CANCELLED OrderStatus.PAID = false ∧
    (processWebhook cancelledDb successWebhook).1 =
      Except.ok (successPayment samplePayment (some "pp1") none) ∧
    statusOf (processWebhook cancelledDb successWebhook).2 1 = some OrderStatus.PAID := by
  exact ⟨rfl, rfl, rfl, rfl⟩

/-- Claim C1 (amended): for every payment that is not yet terminal, a provider
success signal makes the Settlement Engine mark the Payment SUCCESS,
transition the Order to PAID and append exactly one OrderTracking row within
one atomic transaction; however the order transition is applied
unconditionally, without consulting the Order State Machine — the order is
set to PAID whatever its current status (the theorem needs no hypothesis on
`ord.status`), so the PENDING → PAID edge is respected only when the order
happened to be PENDING. -/
theorem claim_C1 (db : DB) (w : WebhookPayloadDto) (payment : Payment) (ord : Order)
    (hfind : db.payments.find? (fun q => q.providerOrderId == w.providerOrderId) = some payment)
    (hid : db.payments.find? (fun q => q.id == payment.id) = some payment)
    (hord : db.orders.find? (fun o => o.id == payment.orderId) = some ord)
    (hs1 : payment.status ≠ PaymentStatus.SUCCESS)
    (hs2 : payment.status ≠ PaymentStatus.FAILED)
    (hamt : ¬(truthyAmount w.amount ∧ w.amount ≠ some payment.amount))
    (hsig : w.event = "payment.success" ∨ w.status = some "SUCCESS") :
    (processWebhook db w).1 =
      Except.ok (successPayment payment w.providerPaymentId w.paymentMethod) ∧
    paymentStatusOf (processWebhook db w).2 payment.id = some PaymentStatus.SUCCESS ∧
    statusOf (processWebhook db w).2 payment.orderId = some OrderStatus.PAID ∧
    (processWebhook db w).2.orderTracking = db.orderTracking ++
      [{ orderId := payment.orderId, status := OrderStatus.PAID,
         note := "Payment successful" }] ∧
    (processWebhook db w).2.products = db.products := by
  have heq := processWebhook_success_eq db w payment ord hfind hid hord hs1 hs2 hamt hsig
  rw [heq]
  refine ⟨rfl, ?_, ?_, rfl, rfl⟩
  · exact paymentStatusOf_replace db.payments payment.id
      (successPayment payment w.providerPaymentId w.paymentMethod) payment rfl hid
  · exact statusOf_set_status db.orders payment.orderId OrderStatus.PAID ord hord

/-- Claim C1, witness: the sample store (order 1 PENDING, payment INITIATED)
satisfies every hypothesis of `claim_C1`, and the conclusion holds there. -/
theorem claim_C1_witness :
    statusOf sampleDb 1 = some OrderStatus.PENDING ∧
    samplePayment.status ≠ PaymentStatus.SUCCESS ∧
    ((processWebhook sampleDb successWebhook).1 =
      Except.ok (successPayment samplePayment successWebhook.providerPaymentId
        successWebhook.paymentMethod) ∧
    paymentStatusOf (processWebhook sampleDb successWebhook).2 samplePayment.id =
      some PaymentStatus.SUCCESS ∧
    statusOf (processWebhook sampleDb successWebhook).2 samplePayment.orderId =
      some OrderStatus.PAID ∧
    (processWebhook sampleDb successWebhook).2.orderTracking = sampleDb.orderTracking ++
      [{ orderId := samplePayment.orderId, status := OrderStatus.PAID,
         note := "Payment successful" }] ∧
    (processWebhook sampleDb successWebhook).2.products = sampleDb.products) :=
  ⟨rfl, by decide,
   claim_C1 sampleDb successWebhook samplePayment sampleOrder rfl rfl rfl
     (by decide) (by decide) (by decide) (Or.inl rfl)⟩

/-- A Stripe payment-intent object referencing provider order id "po1". -/
def stripeIntent1 : StripePaymentIntent :=
  { id := "po1", paymentMethod := some "card", lastPaymentErrorMessage := none }

/-- Sample store whose payment is already FAILED. -/
def failedPaymentDb : DB :=
  { sampleDb with payments := [{ samplePayment with status := .FAILED }] }

/-- Sample store whose payment is already SUCCESS. -/
def succeededPaymentDb : DB :=
  { sampleDb with payments := [{ samplePayment with status := .SUCCESS }] }

/-- Claim C2, counterexample: the claim promises that a payment already
SUCCESS **or FAILED** is returned unchanged for a further provider event,
"generic webhook or Stripe event".  But `handleStripePaymentSuccess` only
short-circuits on SUCCESS: a Stripe `payment_intent.succeeded` event for a
payment already FAILED re-processes it — the payment flips to SUCCESS, the
order is set to PAID, and a new tracking row is appended. -/
theorem claim_C2_counterexample :
    paymentStatusOf failedPaymentDb 1 = some PaymentStatus.FAILED ∧
    paymentStatusOf
      (processStripeWebhook failedPaymentDb "payment_intent.succeeded" stripeIntent1).2 1 =
      some PaymentStatus.SUCCESS ∧
    statusOf
      (processStripeWebhook failedPaymentDb "payment_intent.succeeded" stripeIntent1).2 1 =
      some OrderStatus.PAID ∧
    trackCount
      (processStripeWebhook failedPaymentDb "payment_intent.succeeded" stripeIntent1).2 1 =
      trackCount failedPaymentDb 1 + 1 := by
  exact ⟨rfl, rfl, rfl, rfl⟩

/-- Claim C2 (amended): the idempotency guarantee holds in full for the
generic webhook path — a payment already SUCCESS or FAILED is returned
unchanged with no further effects — and for the Stripe success event only
when the payment is already SUCCESS (a FAILED payment would be re-processed,
see the counterexample).  Delivering the same success event twice for one
payment yields exactly one SUCCESS payment transition, one PAID order
transition and one tracking row: the second delivery is a no-op returning
the same Payment. -/
theorem claim_C2 :
    (∀ (db : DB) (w : WebhookPayloadDto) (payment : Payment),
      db.payments.find? (fun q => q.providerOrderId == w.providerOrderId) = some payment →
      (payment.status = PaymentStatus.SUCCESS ∨ payment.status = PaymentStatus.FAILED) →
      processWebhook db w = (.ok payment, db)) ∧
    (∀ (db : DB) (intent : StripePaymentIntent) (payment : Payment),
      db.payments.find? (fun q => q.providerOrderId == intent.id) = some payment →
      payment.status = PaymentStatus.SUCCESS →
      processStripeWebhook db "payment_intent.succeeded" intent = (.ok (some payment), db)) ∧
    (∀ (db db1 : DB) (w : WebhookPayloadDto) (payment : Payment) (ord : Order) (p1 : Payment),
      db.payments.find? (fun q => q.providerOrderId == w.providerOrderId) = some payment →
      db.payments.find? (fun q => q.id == payment.id) = some payment →
      db.orders.find? (fun o => o.id == payment.orderId) = some ord →
      payment.status ≠ PaymentStatus.SUCCESS →
      payment.status ≠ PaymentStatus.FAILED →
      ¬(truthyAmount w.amount ∧ w.amount ≠ some payment.amount) →
      (w.event = "payment.success" ∨ w.status = some "SUCCESS") →
      processWebhook db w = (.ok p1, db1) →
      db1.payments.find? (fun q => q.providerOrderId == w.providerOrderId) = some p1 →
      p1.status = PaymentStatus.SUCCESS ∧
      statusOf db1 payment.orderId = some OrderStatus.PAID ∧
      db1.orderTracking = db.orderTracking ++
        [{ orderId := payment.orderId, status := OrderStatus.PAID,
           note := "Payment successful" }] ∧
      processWebhook db1 w = (.ok p1, db1)) := by
  refine ⟨?_, ?_, ?_⟩
  · intro db w payment hfind hterm
    unfold processWebhook
    simp only [hfind]
    rw [if_pos hterm]
  · intro db intent payment hfind hsucc
    have hh : handleStripePaymentSuccess db intent = (.ok payment, db) := by
      unfold handleStripePaymentSuccess
      simp only [hfind]
      rw [if_pos hsucc]
    unfold processStripeWebhook
    rw [if_pos rfl, hh]
    rfl
  · intro db db1 w payment ord p1 hfind hid hord hs1 hs2 hamt hsig hrun hfind1
    have heq := processWebhook_success_eq db w payment ord hfind hid hord hs1 hs2 hamt hsig
    rw [hrun] at heq
    have hp1 : p1 = successPayment payment w.providerPaymentId w.paymentMethod := by
      have := congrArg Prod.fst heq
      simpa using this
    have hdb1 : db1 =
        { db with
          payments := db.payments.map (fun q =>
            if q.id == payment.id then successPayment payment w.providerPaymentId w.paymentMethod
            else q),
          orders := db.orders.map (fun o =>
            if o.id == payment.orderId then { o with status := OrderStatus.PAID } else o),
          orderTracking := db.orderTracking ++
            [{ orderId := payment.orderId, status := OrderStatus.PAID,
               note := "Payment successful" }] } := by
      have := congrArg Prod.snd heq
      simpa using this
    refine ⟨by rw [hp1]; rfl, ?_, by rw [hdb1], ?_⟩
    · rw [hdb1]
      exact statusOf_set_status db.orders payment.orderId OrderStatus.PAID ord hord
    · unfold processWebhook
      simp only [hfind1]
      rw [if_pos (Or.inl (by rw [hp1]; rfl))]

/-- Claim C2, witness: concrete instances of all three conjuncts — a generic
webhook against an already-SUCCESS payment is a no-op, a Stripe success event
against an already-SUCCESS payment is a no-op, and a second delivery of the
same success webhook after a first successful settlement is a no-op
returning the same Payment. -/
theorem claim_C2_witness :
    paymentStatusOf succeededPaymentDb 1 = some PaymentStatus.SUCCESS ∧
    processWebhook succeededPaymentDb successWebhook =
      (.ok { samplePayment with status := PaymentStatus.SUCCESS }, succeededPaymentDb) ∧
    processStripeWebhook succeededPaymentDb "payment_intent.succeeded" stripeIntent1 =
      (.ok (some { samplePayment with status := PaymentStatus.SUCCESS }), succeededPaymentDb) ∧
    processWebhook (processWebhook sampleDb successWebhook).2 successWebhook =
      (.ok (successPayment samplePayment (some "pp1") none),
       (processWebhook sampleDb successWebhook).2) :=
  ⟨rfl,
   claim_C2.1 succeededPaymentDb successWebhook
     { samplePayment with status := PaymentStatus.SUCCESS } rfl (Or.inl rfl),
   claim_C2.2.1 succeededPaymentDb stripeIntent1
     { samplePayment with status := PaymentStatus.SUCCESS } rfl rfl,
   (claim_C2.2.2 sampleDb (processWebhook sampleDb successWebhook).2 successWebhook
     samplePayment sampleOrder (successPayment samplePayment (some "pp1") none)
     rfl rfl rfl (by decide) (by decide) (by decide) (Or.inl rfl) rfl rfl).2.2.2⟩

/-- The payment row `handlePaymentFailure` writes. -/
def failedPayment (payment : Payment) (providerPaymentId failureReason : Option String) :
    Payment :=
  { payment with
    status := PaymentStatus.FAILED,
    providerPaymentId := jsOrNull providerPaymentId,
    failureReason := (match failureReason with
      | none => payment.failureReason
      | some r => some r) }

/-- Unfolding equation of `qtySum` on a cons. -/
theorem qtySum_cons (it : OrderItem) (rest : List OrderItem) (pid : Nat) :
    qtySum (it :: rest) pid =
      if it.productId = pid then (it.quantity : Int) + qtySum rest pid
      else qtySum rest pid := rfl

/-- Items referencing other products contribute nothing to `qtySum`. -/
theorem qtySum_eq_zero (items : List OrderItem) (pid : Nat)
    (h : pid ∉ items.map (fun it => it.productId)) : qtySum items pid = 0 := by
  induction items with
  | nil => rfl
  | cons it rest ih =>
    simp only [List.map_cons, List.mem_cons, not_or] at h
    rw [qtySum_cons, if_neg (fun hc => h.1 hc.symm), ih h.2]

/-- With pairwise distinct product ids, the quantity an item's product gains
is exactly that item's quantity. -/
theorem qtySum_nodup (items : List OrderItem)
    (hnd : (items.map (fun it => it.productId)).Nodup) :
    ∀ it ∈ items, qtySum items it.productId = (it.quantity : Int) := by
  induction items with
  | nil => intro it h; cases h
  | cons a rest ih =>
    intro it hmem
    rw [List.map_cons, List.nodup_cons] at hnd
    rcases List.mem_cons.mp hmem with rfl | hm
    · rw [qtySum_cons, if_pos rfl, qtySum_eq_zero rest it.productId hnd.1, add_zero]
    · rw [qtySum_cons, if_neg ?_]
      · exact ih hnd.2 it hm
      · intro hc
        exact hnd.1 (hc ▸ List.mem_map_of_mem (fun x => x.productId) hm)

/-- Effect of one stock increment on every product's observed stock. -/
theorem stockOf_incrementStock (ps : List Product) (pid q pid' : Nat) :
    stockOf (incrementStock ps pid q) pid' =
      (stockOf ps pid').map (fun s => if pid' = pid then s + (q : Int) else s) := by
  unfold stockOf incrementStock
  rw [find_map_comm
      (fun p => if p.id == pid then { p with stock := p.stock + (q : Int) } else p)
      (fun p => p.id == pid') ps (by intro a; by_cases ha : a.id == pid <;> simp [ha])]
  cases h : ps.find? (fun p => p.id == pid') with
  | none => rfl
  | some p =>
    have hp : p.id = pid' := by simpa using List.find?_some h
    by_cases h2 : pid' = pid <;> simp [hp, h2]

/-- The restoration loop adds exactly `qtySum items` to every product's
stock. -/
theorem restoreInventory_stock : ∀ (items : List OrderItem) (ps ps' : List Product),
    restoreInventory ps items = some ps' →
    ∀ pid, stockOf ps' pid = (stockOf ps pid).map (fun s => s + qtySum items pid) := by
  intro items
  induction items with
  | nil =>
    intro ps ps' h pid
    simp only [restoreInventory, Option.some.injEq] at h
    subst h
    cases hs : stockOf ps pid <;> simp [qtySum]
  | cons it rest ih =>
    intro ps ps' h pid
    unfold restoreInventory at h
    by_cases hex : (ps.find? (fun p => p.id == it.productId)).isSome
    · rw [if_pos hex] at h
      rw [ih _ _ h pid, stockOf_incrementStock]
      cases hs : stockOf ps pid with
      | none => rfl
      | some s =>
        simp only [Option.map_some', Option.some.injEq, qtySum_cons]
        by_cases hpp : pid = it.productId
        · rw [if_pos hpp, if_pos hpp.symm]
          omega
        · rw [if_neg hpp, if_neg (fun hc => hpp hc.symm)]
    · rw [if_neg hex] at h
      exact absurd h (by simp)

/-- The restoration loop succeeds when every referenced product exists. -/
theorem restoreInventory_total : ∀ (items : List OrderItem) (ps : List Product),
    (∀ it ∈ items, (stockOf ps it.productId).isSome) →
    ∃ ps', restoreInventory ps items = some ps' := by
  intro items
  induction items with
  | nil => intro ps _; exact ⟨ps, rfl⟩
  | cons it rest ih =>
    intro ps h
    have hex : (ps.find? (fun p => p.id == it.productId)).isSome := by
      have := h it (List.mem_cons_self it rest)
      simpa [stockOf] using this
    have hrest : ∀ it' ∈ rest,
        (stockOf (incrementStock ps it.productId it.quantity) it'.productId).isSome := by
      intro it' hm
      rw [stockOf_incrementStock]
      have := h it' (List.mem_cons_of_mem it hm)
      simpa using this
    obtain ⟨ps', hps'⟩ := ih _ hrest
    refine ⟨ps', ?_⟩
    unfold restoreInventory
    rw [if_pos hex]
    exact hps'

/-- Characterization of `handlePaymentFailure` when the payment and order
rows are present and the restoration loop succeeds. -/
theorem handlePaymentFailure_eq (db : DB) (payment : Payment)
    (providerPaymentId failureReason : Option String) (ord : Order) (rps : List Product)
    (hid : db.payments.find? (fun q => q.id == payment.id) = some payment)
    (hord : db.orders.find? (fun o => o.id == payment.orderId) = some ord)
    (hrest : restoreInventory db.products
      (db.orderItems.filter (fun it => it.orderId == payment.orderId)) = some rps) :
    handlePaymentFailure db payment providerPaymentId failureReason =
      (.ok (failedPayment payment providerPaymentId failureReason),
       { db with
         products := rps,
         payments := db.payments.map (fun q =>
           if q.id == payment.id then failedPayment payment providerPaymentId failureReason
           else q),
         orders := db.orders.map (fun o =>
           if o.id == payment.orderId then { o with status := OrderStatus.CANCELLED } else o),
         orderTracking := db.orderTracking ++
           [{ orderId := payment.orderId, status := OrderStatus.CANCELLED,
              note := paymentFailedNote failureReason }] }) := by
  unfold handlePaymentFailure
  simp only [hid, hord, hrest]
  rfl

/-- Characterization of `processWebhook` on a failure signal against a
non-terminal payment with no amount mismatch. -/
theorem processWebhook_failure_eq (db : DB) (w : WebhookPayloadDto)
    (payment : Payment) (ord : Order) (rps : List Product)
    (hfind : db.payments.find? (fun q => q.providerOrderId == w.providerOrderId) = some payment)
    (hid : db.payments.find? (fun q => q.id == payment.id) = some payment)
    (hord : db.orders.find? (fun o => o.id == payment.orderId) = some ord)
    (hs1 : payment.status ≠ PaymentStatus.SUCCESS)
    (hs2 : payment.status ≠ PaymentStatus.FAILED)
    (hamt : ¬(truthyAmount w.amount ∧ w.amount ≠ some payment.amount))
    (hnosig : ¬(w.event = "payment.success" ∨ w.status = some "SUCCESS"))
    (hsig : w.event = "payment.failed" ∨ w.status = some "FAILED")
    (hrest : restoreInventory db.products
      (db.orderItems.filter (fun it => it.orderId == payment.orderId)) = some rps) :
    processWebhook db w =
      (.ok (failedPayment payment w.providerPaymentId w.failureReason),
       { db with
         products := rps,
         payments := db.payments.map (fun q =>
           if q.id == payment.id then failedPayment payment w.providerPaymentId w.failureReason
           else q),
         orders := db.orders.map (fun o =>
           if o.id == payment.orderId then { o with status := OrderStatus.CANCELLED } else o),
         orderTracking := db.orderTracking ++
           [{ orderId := payment.orderId, status := OrderStatus.CANCELLED,
              note := paymentFailedNote w.failureReason }] }) := by
  unfold processWebhook
  simp only [hfind]
  rw [if_neg (by rintro (h | h) <;> [exact hs1 h; exact hs2 h]), if_neg hamt,
    if_neg hnosig, if_pos hsig]
  exact handlePaymentFailure_eq db payment w.providerPaymentId w.failureReason ord rps
    hid hord hrest

/-- Claim C3: for every payment that is not yet terminal, on a provider
failure signal the Settlement Engine — within one atomic transaction — marks
the Payment FAILED with the failure reason, transitions the Order to
CANCELLED, appends one OrderTracking row, and restores inventory by
incrementing each referenced product's stock by the quantity of the
corresponding OrderItem of that order. -/
theorem claim_C3 (db : DB) (w : WebhookPayloadDto) (payment : Payment) (ord : Order)
    (reason : String)
    (hfind : db.payments.find? (fun q => q.providerOrderId == w.providerOrderId) = some payment)
    (hid : db.payments.find? (fun q => q.id == payment.id) = some payment)
    (hord : db.orders.find? (fun o => o.id == payment.orderId) = some ord)
    (hs1 : payment.status ≠ PaymentStatus.SUCCESS)
    (hs2 : payment.status ≠ PaymentStatus.FAILED)
    (hamt : ¬(truthyAmount w.amount ∧ w.amount ≠ some payment.amount))
    (hnosig : ¬(w.event = "payment.success" ∨ w.status = some "SUCCESS"))
    (hsig : w.event = "payment.failed" ∨ w.status = some "FAILED")
    (hfr : w.failureReason = some reason)
    (hex : ∀ it ∈ db.orderItems.filter (fun x => x.orderId == payment.orderId),
      (stockOf db.products it.productId).isSome)
    (hnd : ((db.orderItems.filter (fun x => x.orderId == payment.orderId)).map
      (fun it => it.productId)).Nodup) :
    (processWebhook db w).1 =
      Except.ok (failedPayment payment w.providerPaymentId w.failureReason) ∧
    paymentStatusOf (processWebhook db w).2 payment.id = some PaymentStatus.FAILED ∧
    (failedPayment payment w.providerPaymentId w.failureReason).failureReason = some reason ∧
    statusOf (processWebhook db w).2 payment.orderId = some OrderStatus.CANCELLED ∧
    (processWebhook db w).2.orderTracking = db.orderTracking ++
      [{ orderId := payment.orderId, status := OrderStatus.CANCELLED,
         note := paymentFailedNote w.failureReason }] ∧
    ∀ it ∈ db.orderItems.filter (fun x => x.orderId == payment.orderId),
      stockOf (processWebhook db w).2.products it.productId =
        (stockOf db.products it.productId).map (fun s => s + (it.quantity : Int)) := by
  obtain ⟨rps, hrest⟩ := restoreInventory_total
    (db.orderItems.filter (fun x => x.orderId == payment.orderId)) db.products hex
  have heq := processWebhook_failure_eq db w payment ord rps hfind hid hord hs1 hs2 hamt
    hnosig hsig hrest
  rw [heq]
  refine ⟨rfl, ?_, ?_, ?_, rfl, ?_⟩
  · exact paymentStatusOf_replace db.payments payment.id
      (failedPayment payment w.providerPaymentId w.failureReason) payment rfl hid
  · simp [failedPayment, hfr]
  · exact statusOf_set_status db.orders payment.orderId OrderStatus.CANCELLED ord hord
  · intro it hm
    have hst := restoreInventory_stock
      (db.orderItems.filter (fun x => x.orderId == payment.orderId)) db.products rps
      hrest it.productId
    show stockOf rps it.productId =
      (stockOf db.products it.productId).map (fun s => s + (it.quantity : Int))
    rw [hst]
    simp only [qtySum_nodup _ hnd it hm]

/-- A generic provider failure webhook for provider order id "po1". -/
def failWebhook : WebhookPayloadDto :=
  { event := "payment.failed", providerOrderId := "po1", providerPaymentId := some "pp1",
    signature := none, amount := none, status := none, paymentMethod := none,
    failureReason := some "card declined" }

/-- Claim C3, witness: on the sample store (items (P1, qty 2) and (P2, qty 1),
stocks 3 and 5), a failure webhook marks the payment FAILED with the reason,
cancels the order, appends one tracking row, and raises the stocks to 5 and
6. -/
theorem claim_C3_witness :
    samplePayment.status ≠ PaymentStatus.SUCCESS ∧
    sampleDb.payments.find?
      (fun q => q.providerOrderId == failWebhook.providerOrderId) = some samplePayment ∧
    ((processWebhook sampleDb failWebhook).1 =
      Except.ok (failedPayment samplePayment (some "pp1") (some "card declined")) ∧
    paymentStatusOf (processWebhook sampleDb failWebhook).2 samplePayment.id =
      some PaymentStatus.FAILED ∧
    (failedPayment samplePayment (some "pp1") (some "card declined")).failureReason =
      some "card declined" ∧
    statusOf (processWebhook sampleDb failWebhook).2 samplePayment.orderId =
      some OrderStatus.CANCELLED ∧
    (processWebhook sampleDb failWebhook).2.orderTracking = sampleDb.orderTracking ++
      [{ orderId := samplePayment.orderId, status := OrderStatus.CANCELLED,
         note := paymentFailedNote (some "card declined") }] ∧
    ∀ it ∈ sampleDb.orderItems.filter (fun x => x.orderId == samplePayment.orderId),
      stockOf (processWebhook sampleDb failWebhook).2.products it.productId =
        (stockOf sampleDb.products it.productId).map (fun s => s + (it.quantity : Int))) :=
  ⟨by decide, rfl,
   claim_C3 sampleDb failWebhook samplePayment sampleOrder "card declined"
     rfl rfl rfl (by decide) (by decide) (by decide) (by decide) (Or.inl rfl) rfl
     (by intro it hm; fin_cases hm <;> decide) (by decide)⟩

/-- Claim C4: `isValidTransition` agrees exactly with the specification's
transition table, and for every existing order `updateOrderStatus` fails with
no state change on a pair outside the table, while on a pair inside the table
it succeeds, sets the target status, and appends exactly one tracking row. -/
theorem claim_C4 :
    (∀ (c t : OrderStatus),
      isValidTransition c t = specOrderTransitionTable.contains (c, t)) ∧
    (∀ (db : DB) (orderId : Nat) (tgt : OrderStatus) (note : Option String) (ord : Order),
      db.orders.find? (fun o => o.id == orderId) = some ord →
      (isValidTransition ord.status tgt = false →
        updateOrderStatus db orderId tgt note = (.error .BadRequestException, db)) ∧
      (isValidTransition ord.status tgt = true →
        (updateOrderStatus db orderId tgt note).1 = .ok { ord with status := tgt } ∧
        statusOf (updateOrderStatus db orderId tgt note).2 orderId = some tgt ∧
        (updateOrderStatus db orderId tgt note).2.orderTracking = db.orderTracking ++
          [{ orderId := orderId, status := tgt,
             note := note.getD ("Order status changed to " ++ tgt.name) }])) := by
  refine ⟨fun c t => by cases c <;> cases t <;> decide, ?_⟩
  intro db orderId tgt note ord hfind
  constructor
  · intro hinv
    unfold updateOrderStatus
    simp only [hfind]
    rw [if_neg (by simp [hinv])]
  · intro hval
    have heq : updateOrderStatus db orderId tgt note =
        (.ok { ord with status := tgt },
         { db with
           orders := db.orders.map (fun o =>
             if o.id == orderId then { o with status := tgt } else o),
           orderTracking := db.orderTracking ++
             [{ orderId := orderId, status := tgt,
                note := note.getD ("Order status changed to " ++ tgt.name) }] }) := by
      unfold updateOrderStatus
      simp only [hfind]
      rw [if_pos hval]
    rw [heq]
    exact ⟨rfl, statusOf_set_status db.orders orderId tgt ord hfind, rfl⟩

/-- Claim C4, witness: on the sample store, PENDING → SHIPPED (outside the
table) is rejected with the store unchanged, and PENDING → PAID (inside the
table) succeeds, sets PAID and appends one tracking row. -/
theorem claim_C4_witness :
    isValidTransition OrderStatus.PENDING OrderStatus.PAID = true ∧
    isValidTransition OrderStatus.PENDING OrderStatus.SHIPPED = false ∧
    sampleDb.orders.find? (fun o => o.id == 1) = some sampleOrder ∧
    updateOrderStatus sampleDb 1 OrderStatus.SHIPPED none =
      (.error NestError.BadRequestException, sampleDb) ∧
    ((updateOrderStatus sampleDb 1 OrderStatus.PAID none).1 =
      .ok { sampleOrder with status := OrderStatus.PAID } ∧
     statusOf (updateOrderStatus sampleDb 1 OrderStatus.PAID none).2 1 =
      some OrderStatus.PAID ∧
     (updateOrderStatus sampleDb 1 OrderStatus.PAID none).2.orderTracking =
      sampleDb.orderTracking ++
        [{ orderId := 1, status := OrderStatus.PAID,
           note := "Order status changed to PAID" }]) :=
  ⟨rfl, rfl, rfl,
   (claim_C4.2 sampleDb 1 OrderStatus.SHIPPED none sampleOrder rfl).1 rfl,
   (claim_C4.2 sampleDb 1 OrderStatus.PAID none sampleOrder rfl).2 rfl⟩

/-- Every error of the reservation loop is a `BadRequestException` (missing
or inactive product, missing locked row, insufficient stock). -/
theorem reserveItems_error_kind : ∀ (items : List CreateOrderItemInput)
    (pmap : List Product) (oid : Nat) (ps : List Product) (e : NestError),
    reserveItems pmap items oid ps = .error e → e = NestError.BadRequestException := by
  intro items
  induction items with
  | nil =>
    intro pmap oid ps e h
    simp [reserveItems] at h
  | cons item rest ih =>
    intro pmap oid ps e h
    unfold reserveItems at h
    cases h1 : pmap.find? (fun p => p.id == item.productId) with
    | none =>
      simp only [h1] at h
      exact (Except.error.inj h).symm
    | some product =>
      simp only [h1] at h
      cases h2 : ps.find? (fun p => p.id == item.productId) with
      | none =>
        simp only [h2] at h
        exact (Except.error.inj h).symm
      | some locked =>
        simp only [h2] at h
        by_cases h3 : locked.stock < (item.quantity : Int)
        · rw [if_pos h3] at h
          exact (Except.error.inj h).symm
        · rw [if_neg h3] at h
          cases h4 : reserveItems pmap rest oid
              (ps.map (fun p =>
                if p.id == item.productId then
                  { p with stock := p.stock - (item.quantity : Int) }
                else p)) with
          | error e2 =>
            simp only [h4] at h
            have he2 := ih pmap oid _ e2 h4
            rw [← Except.error.inj h]
            exact he2
          | ok r =>
            obtain ⟨st, its, fps⟩ := r
            simp only [h4] at h
            exact Except.noConfusion h

/-- Every item of a successful reservation loop had, at the start of the
loop, at least its requested quantity in stock (the loop only decreases
stocks, so the final check each item passed bounds its initial stock from
below). -/
theorem reserveItems_ok_stock : ∀ (items : List CreateOrderItemInput)
    (pmap : List Product) (oid : Nat) (ps : List Product)
    (r : Nat × List OrderItem × List Product),
    reserveItems pmap items oid ps = .ok r →
    ∀ it ∈ items, ∃ p, ps.find? (fun q => q.id == it.productId) = some p ∧
      (it.quantity : Int) ≤ p.stock := by
  intro items
  induction items with
  | nil =>
    intro pmap oid ps r h it hmem
    cases hmem
  | cons item rest ih =>
    intro pmap oid ps r h it hmem
    unfold reserveItems at h
    cases h1 : pmap.find? (fun p => p.id == item.productId) with
    | none =>
      simp only [h1] at h
      exact Except.noConfusion h
    | some product =>
      simp only [h1] at h
      cases h2 : ps.find? (fun p => p.id == item.productId) with
      | none =>
        simp only [h2] at h
        exact Except.noConfusion h
      | some locked =>
        simp only [h2] at h
        by_cases h3 : locked.stock < (item.quantity : Int)
        · rw [if_pos h3] at h
          exact absurd h (by simp)
        · rw [if_neg h3] at h
          cases h4 : reserveItems pmap rest oid
              (ps.map (fun p =>
                if p.id == item.productId then
                  { p with stock := p.stock - (item.quantity : Int) }
                else p)) with
          | error e =>
            simp only [h4] at h
            exact Except.noConfusion h
          | ok r2 =>
            simp only [h4] at h
            rcases List.mem_cons.mp hmem with rfl | hm
            · exact ⟨locked, h2, not_lt.mp h3⟩
            · obtain ⟨p', hp', hle⟩ := ih pmap oid _ r2 h4 it hm
              rw [find_map_comm
                  (fun p => if p.id == item.productId then
                    { p with stock := p.stock - (item.quantity : Int) } else p)
                  (fun q => q.id == it.productId) ps
                  (by intro a; by_cases ha : a.id == item.productId <;> simp [ha])] at hp'
              cases hf : ps.find? (fun q => q.id == it.productId) with
              | none => rw [hf] at hp'; cases hp'
              | some p0 =>
                rw [hf] at hp'
                have hp0 := Option.some.inj hp'
                refine ⟨p0, rfl, le_trans hle ?_⟩
                rw [← hp0]
                by_cases hb : p0.id == item.productId <;> simp [hb]

/-- A successful reservation loop returns exactly the sum of
`price * quantity` over the items, every price taken from the product map it
was given. -/
theorem reserveItems_ok_subtotal : ∀ (items : List CreateOrderItemInput)
    (pmap : List Product) (oid : Nat) (ps : List Product)
    (st : Nat) (its : List OrderItem) (fps : List Product),
    reserveItems pmap items oid ps = .ok (st, its, fps) →
    st = itemsSubtotal pmap items := by
  intro items
  induction items with
  | nil =>
    intro pmap oid ps st its fps h
    simp only [reserveItems, Except.ok.injEq, Prod.mk.injEq] at h
    exact h.1.symm
  | cons item rest ih =>
    intro pmap oid ps st its fps h
    unfold reserveItems at h
    cases h1 : pmap.find? (fun p => p.id == item.productId) with
    | none =>
      simp only [h1] at h
      exact Except.noConfusion h
    | some product =>
      simp only [h1] at h
      cases h2 : ps.find? (fun p => p.id == item.productId) with
      | none =>
        simp only [h2] at h
        exact Except.noConfusion h
      | some locked =>
        simp only [h2] at h
        by_cases h3 : locked.stock < (item.quantity : Int)
        · rw [if_pos h3] at h
          exact absurd h (by simp)
        · rw [if_neg h3] at h
          cases h4 : reserveItems pmap rest oid
              (ps.map (fun p =>
                if p.id == item.productId then
                  { p with stock := p.stock - (item.quantity : Int) }
                else p)) with
          | error e =>
            simp only [h4] at h
            exact Except.noConfusion h
          | ok r2 =>
            obtain ⟨st2, its2, fps2⟩ := r2
            simp only [h4, Except.ok.injEq, Prod.mk.injEq] at h
            have hst := h.1
            have : itemsSubtotal pmap (item :: rest) =
                priceAt pmap item.productId * item.quantity + itemsSubtotal pmap rest := rfl
            rw [this]
            rw [← hst, ih pmap oid _ st2 its2 fps2 h4]
            unfold priceAt
            rw [h1]

/-- Sample store with a single product in stock 1. -/
def lowStockDb : DB :=
  { products := [{ id := 1, title := "P1", price := 100, stock := 1, isActive := true }],
    orders := [], orderItems := [], orderTracking := [], payments := [] }

/-- Claim C5, counterexample: requesting quantity 2 of a product with stock 1
makes `createOrder` fail with a `BadRequestException` (HTTP 400), not with
the `ConflictException` the claim names — `ConflictException` is imported by
the service but never thrown on this path.  The no-partial-effects half of
the claim does hold (the returned store is unchanged). -/
theorem claim_C5_counterexample :
    createOrder lowStockDb lowStockDb 7 [{ productId := 1, quantity := 2 }] "ORD-2" 9 =
      (.error NestError.BadRequestException, lowStockDb) ∧
    NestError.BadRequestException ≠ NestError.ConflictException := by
  exact ⟨rfl, by decide⟩

/-- Claim C5 (amended): for every `createOrder` call in which some item's
requested quantity exceeds that product's current stock, the call fails with
a bad-request (insufficient stock) error — not a conflict error — and has no
partial effects: the returned store is the input store, so no stock changes
(reservations of earlier items are rolled back with the transaction) and no
Order, OrderItem or OrderTracking row is created. -/
theorem claim_C5 (db : DB) (userId : Nat) (items : List CreateOrderItemInput)
    (orderNumber : String) (newOrderId : Nat) (item : CreateOrderItemInput) (p : Product)
    (hmem : item ∈ items)
    (hp : db.products.find? (fun q => q.id == item.productId) = some p)
    (hstock : p.stock < (item.quantity : Int)) :
    createOrder db db userId items orderNumber newOrderId =
      (.error NestError.BadRequestException, db) := by
  unfold createOrder
  by_cases hlen : (fetchedProducts db items).length ≠ (items.map (fun i => i.productId)).length
  · rw [if_pos hlen]
  · rw [if_neg hlen]
    cases hres : reserveItems (fetchedProducts db items) items newOrderId db.products with
    | error e =>
      have he := reserveItems_error_kind items _ newOrderId db.products e hres
      rw [he]
    | ok r =>
      exfalso
      obtain ⟨p', hp', hle⟩ := reserveItems_ok_stock items _ newOrderId db.products r hres
        item hmem
      rw [hp] at hp'
      rw [← Option.some.inj hp'] at hle
      exact absurd hle (not_le.mpr hstock)

/-- Claim C5, witness: stock 1, requested quantity 2 — the hypotheses hold
and `createOrder` fails with a bad request leaving the store unchanged. -/
theorem claim_C5_witness :
    ({ productId := 1, quantity := 2 } : CreateOrderItemInput) ∈
      [({ productId := 1, quantity := 2 } : CreateOrderItemInput)] ∧
    lowStockDb.products.find? (fun q => q.id == 1) =
      some { id := 1, title := "P1", price := 100, stock := 1, isActive := true } ∧
    ((1 : Int) < (2 : Int)) ∧
    createOrder lowStockDb lowStockDb 7 [{ productId := 1, quantity := 2 }] "ORD-2" 9 =
      (.error NestError.BadRequestException, lowStockDb) :=
  ⟨List.mem_singleton_self _, rfl, by decide,
   claim_C5 lowStockDb 7 [{ productId := 1, quantity := 2 }] "ORD-2" 9
     { productId := 1, quantity := 2 }
     { id := 1, title := "P1", price := 100, stock := 1, isActive := true }
     (List.mem_singleton_self _) rfl (by decide)⟩

/-- Sample snapshot for the stale-price scenario: product 1 priced 500 at the
pre-transaction read. -/
def stalePriceSnapshot : DB :=
  { products := [{ id := 1, title := "P1", price := 500, stock := 10, isActive := true }],
    orders := [], orderItems := [], orderTracking := [], payments := [] }

/-- The same store as seen inside the transaction after a concurrent price
update to 900. -/
def stalePriceDb : DB :=
  { stalePriceSnapshot with
    products := [{ id := 1, title := "P1", price := 900, stock := 10, isActive := true }] }

/-- Claim C6, counterexample: when the price changes from 500 to 900 between
the pre-transaction `findMany` and the in-transaction locked read, the
subtotal is 500 — computed from `productMap` (the cached pre-transaction
read), not from `lockedProduct` (the row read inside the serializable
transaction when stock is checked and decremented), whose price is 900.
This refutes "each price is the price of the product row read inside the
serializable transaction ... not a price cached from an earlier read". -/
theorem claim_C6_counterexample :
    ((createOrder stalePriceSnapshot stalePriceDb 7 [{ productId := 1, quantity := 1 }]
        "ORD-3" 9).1.map (fun o => o.subtotal) = Except.ok 500) ∧
    ((stalePriceDb.products.find? (fun p => p.id == 1)).map (fun p => p.price) =
      some 900) ∧
    (500 : Nat) ≠ 900 := by
  exact ⟨rfl, rfl, by decide⟩

/-- Claim C6 (amended): for every successful `createOrder` call, the order's
subtotal equals the sum over items of `price * quantity` where each price is
the product price of the `findMany` read performed **before** the
serializable transaction (`fetchedProducts`, the source's `productMap`) —
not the price of the row read inside the transaction at reservation time. -/
theorem claim_C6 (snapshot db : DB) (userId : Nat) (items : List CreateOrderItemInput)
    (orderNumber : String) (newOrderId : Nat) (order : Order) (db' : DB)
    (h : createOrder snapshot db userId items orderNumber newOrderId = (.ok order, db')) :
    order.subtotal = itemsSubtotal (fetchedProducts snapshot items) items := by
  unfold createOrder at h
  by_cases hlen :
      (fetchedProducts snapshot items).length ≠ (items.map (fun i => i.productId)).length
  · rw [if_pos hlen] at h
    exact absurd h (by simp)
  · rw [if_neg hlen] at h
    cases hres : reserveItems (fetchedProducts snapshot items) items newOrderId
        db.products with
    | error e =>
      simp only [hres] at h
      exact absurd h (by simp)
    | ok r =>
      obtain ⟨st, its, fps⟩ := r
      simp only [hres, Prod.mk.injEq, Except.ok.injEq] at h
      rw [← h.1]
      exact reserveItems_ok_subtotal items _ newOrderId db.products st its fps hres

/-- Claim C6, witness: with no concurrent writer (snapshot and transaction
view coincide, price 500), a successful one-item order has subtotal
500 * 1 = 500, the sum at snapshot prices. -/
theorem claim_C6_witness :
    createOrder stalePriceSnapshot stalePriceSnapshot 7 [{ productId := 1, quantity := 1 }]
      "ORD-3" 9 =
      (.ok { id := 9, orderNumber := "ORD-3", userId := 7, status := .PENDING,
             subtotal := 500, tax := 0, shippingCharge := 0, discount := 0,
             totalAmount := 500, cancelReason := none },
       (createOrder stalePriceSnapshot stalePriceSnapshot 7
         [{ productId := 1, quantity := 1 }] "ORD-3" 9).2) ∧
    ({ id := 9, orderNumber := "ORD-3", userId := 7, status := .PENDING,
       subtotal := 500, tax := 0, shippingCharge := 0, discount := 0,
       totalAmount := 500, cancelReason := none } : Order).subtotal =
      itemsSubtotal (fetchedProducts stalePriceSnapshot [{ productId := 1, quantity := 1 }])
        [{ productId := 1, quantity := 1 }] :=
  ⟨rfl,
   claim_C6 stalePriceSnapshot stalePriceSnapshot 7 [{ productId := 1, quantity := 1 }]
     "ORD-3" 9 _ _ rfl⟩

/-- A provider webhook carrying amount 0 for provider order id "po1". -/
def zeroAmountWebhook : WebhookPayloadDto :=
  { successWebhook with amount := some 0 }

/-- Claim C7, counterexample: the amount guard is
`if (amount && amount !== payment.amount)`, and in JavaScript `0` is falsy —
so a webhook carrying amount 0 against a payment of amount 500 is **not**
rejected: the check is skipped, the success branch runs, and the payment is
settled, although the event carries an amount that does not equal
`Payment.amount`.  This refutes "if the event carries an amount and that
amount does not equal Payment.amount exactly, the call fails ... and no
state changes apply". -/
theorem claim_C7_counterexample :
    zeroAmountWebhook.amount = some 0 ∧
    samplePayment.amount = 500 ∧
    (0 : Nat) ≠ 500 ∧
    (processWebhook sampleDb zeroAmountWebhook).1 =
      Except.ok (successPayment samplePayment (some "pp1") none) ∧
    paymentStatusOf (processWebhook sampleDb zeroAmountWebhook).2 1 =
      some PaymentStatus.SUCCESS := by
  exact ⟨rfl, rfl, by decide, rfl, rfl⟩

/-- Claim C7 (amended): for every `processWebhook` call that locates a
non-terminal payment, if the event carries a **nonzero** amount that does not
equal `Payment.amount` exactly, the call fails with the amount-mismatch
bad-request error and no state changes apply (the store is returned
unchanged); an amount of zero is treated as absent by the JavaScript
truthiness guard and skips the check. -/
theorem claim_C7 (db : DB) (w : WebhookPayloadDto) (payment : Payment) (a : Nat)
    (hfind : db.payments.find? (fun q => q.providerOrderId == w.providerOrderId) = some payment)
    (hs1 : payment.status ≠ PaymentStatus.SUCCESS)
    (hs2 : payment.status ≠ PaymentStatus.FAILED)
    (ha : w.amount = some a)
    (h0 : a ≠ 0)
    (hne : a ≠ payment.amount) :
    processWebhook db w = (.error NestError.BadRequestException, db) := by
  unfold processWebhook
  simp only [hfind]
  rw [if_neg (by rintro (h | h) <;> [exact hs1 h; exact hs2 h])]
  rw [if_pos ?_]
  constructor
  · rw [ha]
    unfold truthyAmount
    simpa using h0
  · rw [ha]
    intro hc
    exact hne (Option.some.inj hc)

/-- A provider webhook carrying the mismatching nonzero amount 123. -/
def mismatchWebhook : WebhookPayloadDto :=
  { successWebhook with amount := some 123 }

/-- Claim C7, witness: amount 123 against a payment of amount 500 is rejected
with a bad request and the store unchanged. -/
theorem claim_C7_witness :
    mismatchWebhook.amount = some 123 ∧
    samplePayment.amount = 500 ∧
    (123 : Nat) ≠ 500 ∧
    processWebhook sampleDb mismatchWebhook =
      (.error NestError.BadRequestException, sampleDb) :=
  ⟨rfl, rfl, by decide,
   claim_C7 sampleDb mismatchWebhook samplePayment 123 rfl (by decide) (by decide) rfl
     (by decide) (by decide)⟩

/-- Claim C8: when the order exists, belongs to the caller, is PENDING and
has no existing payment, a failing provider intent-creation call makes
`createPaymentIntent` fail with no Payment row written: the store is
returned unchanged (and the provider call was indeed reached). -/
theorem claim_C8 (db : DB) (orderId userId : Nat) (mockRef idempotencyKey : String)
    (newPaymentId : Nat) (order : Order)
    (hord : db.orders.find? (fun o => o.id == orderId && o.userId == userId) = some order)
    (hst : order.status = OrderStatus.PENDING)
    (hnp : db.payments.find? (fun q => q.orderId == orderId) = none) :
    createPaymentIntent db orderId userId PaymentProvider.STRIPE (.error ()) mockRef
      idempotencyKey newPaymentId =
      (.error NestError.BadRequestException, db, true) := by
  unfold createPaymentIntent
  simp only [hord, hnp]
  rw [if_neg (by simp [hst])]
  rfl

/-- Claim C8, witness: the sample store without its payment row satisfies the
hypotheses, and a failing Stripe call leaves the store without any Payment
row. -/
theorem claim_C8_witness :
    ({ sampleDb with payments := [] } : DB).orders.find?
      (fun o => o.id == 1 && o.userId == 7) = some sampleOrder ∧
    sampleOrder.status = OrderStatus.PENDING ∧
    ({ sampleDb with payments := [] } : DB).payments.find?
      (fun q => q.orderId == 1) = none ∧
    createPaymentIntent { sampleDb with payments := [] } 1 7 PaymentProvider.STRIPE
      (.error ()) "m" "k" 2 =
      (.error NestError.BadRequestException, { sampleDb with payments := [] }, true) :=
  ⟨rfl, rfl, rfl,
   claim_C8 { sampleDb with payments := [] } 1 7 "m" "k" 2 sampleOrder rfl rfl rfl⟩

/-- Claim C9: when the order exists, belongs to the caller, is PENDING and a
Payment row already exists for it, `createPaymentIntent` returns the existing
Payment unchanged, makes no provider call (flag `false`), creates no new
Payment row and modifies no state (the store is returned unchanged). -/
theorem claim_C9 (db : DB) (orderId userId : Nat) (provider : PaymentProvider)
    (stripeResult : Except Unit (String × Option String)) (mockRef idempotencyKey : String)
    (newPaymentId : Nat) (order : Order) (existing : Payment)
    (hord : db.orders.find? (fun o => o.id == orderId && o.userId == userId) = some order)
    (hst : order.status = OrderStatus.PENDING)
    (hp : db.payments.find? (fun q => q.orderId == orderId) = some existing) :
    createPaymentIntent db orderId userId provider stripeResult mockRef
      idempotencyKey newPaymentId =
      (.ok (existing, existing.providerOrderId, existing.providerOrderId), db, false) := by
  unfold createPaymentIntent
  simp only [hord, hp]
  rw [if_neg (by simp [hst])]

/-- Claim C9, witness: on the sample store (payment already present for order
1) the existing Payment is returned, the provider flag is `false`, and the
store is unchanged. -/
theorem claim_C9_witness :
    sampleDb.orders.find? (fun o => o.id == 1 && o.userId == 7) = some sampleOrder ∧
    sampleOrder.status = OrderStatus.PENDING ∧
    sampleDb.payments.find? (fun q => q.orderId == 1) = some samplePayment ∧
    createPaymentIntent sampleDb 1 7 PaymentProvider.STRIPE (.error ()) "m" "k" 2 =
      (.ok (samplePayment, "po1", "po1"), sampleDb, false) :=
  ⟨rfl, rfl, rfl,
   claim_C9 sampleDb 1 7 PaymentProvider.STRIPE (.error ()) "m" "k" 2 sampleOrder
     samplePayment rfl rfl rfl⟩

/-- Claim C10: for every `processWebhook` call that locates a non-terminal
payment whose carried amount (if any) matches, an event that is neither a
success signal (event "payment.success" or status "SUCCESS") nor a failure
signal (event "payment.failed" or status "FAILED") returns the located
Payment and leaves the store — payment, order, tracking and stock —
unchanged. -/
theorem claim_C10 (db : DB) (w : WebhookPayloadDto) (payment : Payment)
    (hfind : db.payments.find? (fun q => q.providerOrderId == w.providerOrderId) = some payment)
    (hs1 : payment.status ≠ PaymentStatus.SUCCESS)
    (hs2 : payment.status ≠ PaymentStatus.FAILED)
    (hamt : w.amount = none ∨ w.amount = some payment.amount)
    (hnosucc : ¬(w.event = "payment.success" ∨ w.status = some "SUCCESS"))
    (hnofail : ¬(w.event = "payment.failed" ∨ w.status = some "FAILED")) :
    processWebhook db w = (.ok payment, db) := by
  unfold processWebhook
  simp only [hfind]
  rw [if_neg (by rintro (h | h) <;> [exact hs1 h; exact hs2 h])]
  rw [if_neg ?_, if_neg hnosucc, if_neg hnofail]
  rcases hamt with h | h <;> rw [h]
  · intro hc
    exact absurd hc.1 (by simp [truthyAmount])
  · intro hc
    exact hc.2 rfl

/-- An unrecognized provider event ("payment.pending") with a matching
amount. -/
def unknownEventWebhook : WebhookPayloadDto :=
  { successWebhook with event := "payment.pending", amount := some 500 }

/-- Claim C10, witness: an unrecognized event with matching amount against
the sample store returns the located payment and the unchanged store. -/
theorem claim_C10_witness :
    sampleDb.payments.find?
      (fun q => q.providerOrderId == unknownEventWebhook.providerOrderId) =
      some samplePayment ∧
    samplePayment.status ≠ PaymentStatus.SUCCESS ∧
    unknownEventWebhook.amount = some samplePayment.amount ∧
    processWebhook sampleDb unknownEventWebhook = (.ok samplePayment, sampleDb) :=
  ⟨rfl, by decide, rfl,
   claim_C10 sampleDb unknownEventWebhook samplePayment rfl (by decide) (by decide)
     (Or.inr rfl) (by decide) (by decide)⟩

end Brofr
